import Mathlib

/-
Verification of the FalImageBot repository (src/main.py) against its
natural-language specification.

The repository is a Telegram bot whose handlers call the Google Gemini
generative-AI API.  We shallowly embed the handlers as pure Lean functions
over explicit oracles for the external collaborators:

  * the Telegram messaging API (each send/edit/delete call site gets a
    Boolean in `TgEnv` saying whether that call raises `TelegramError`);
  * the generative-AI API (`gen` oracles returning `Except PyExn Response`);
  * base64 decoding (`b64` oracle, which may raise);
  * the OS temp-file facility (modelled as a reliable create/delete pair,
    recorded in the `tempCreated`/`tempDeleted` flags of a run).

Every external call a handler makes is recorded in order in a `NetCall`
trace, so statements such as "no status endpoint is ever invoked" or
"no call to the generative model is made" are statements about the trace.

Text is modelled as `List Char`; the Python string operations used by the
handlers (`' '.join`, `.strip()`, `.lower()`, `.replace(old, '')`,
`.split()`, `in`, `.startswith`) are given faithful `List Char`
implementations below.

The spec's queued-job poller (`submit_and_await`) has no implementation in
src/: the only source file is the synchronous Gemini variant.  The poller
is therefore modelled from the spec (section 4.1), clearly marked below.
-/

namespace FalImageBot

/-! ## Python string primitives on `List Char` -/

/-- Whitespace test used by the model of Python `str.strip` / `str.split`. -/
def isSp (c : Char) : Bool := c.isWhitespace

/-- Model of Python `s.startswith(p)` on character lists: `startsWith p l`
is true when `p` is an initial segment of `l`. -/
def startsWith : List Char → List Char → Bool
  | [], _ => true
  | _ :: _, [] => false
  | p :: ps, c :: cs => p = c && startsWith ps cs

/-- Model of Python `p in s` (substring test): `hasSub p l` is true when
`p` occurs contiguously inside `l`. -/
def hasSub (pat : List Char) : List Char → Bool
  | [] => pat.isEmpty
  | c :: cs => startsWith pat (c :: cs) || hasSub pat cs

/-- Fuel-indexed worker for `replaceAll`.  The fuel argument only provides
structural termination (each step consumes at least one character, so a
fuel of the list's length is always enough); `replaceAll` supplies it. -/
def replaceAllAux (pat : List Char) : Nat → List Char → List Char
  | _, [] => []
  | 0, l => l
  | fuel + 1, c :: cs =>
    if startsWith pat (c :: cs) && !pat.isEmpty then
      replaceAllAux pat fuel ((c :: cs).drop pat.length)
    else
      c :: replaceAllAux pat fuel cs

/-- Model of Python `s.replace(pat, '')`: removes every (left-to-right,
non-overlapping) occurrence of `pat` from the list. -/
def replaceAll (pat l : List Char) : List Char := replaceAllAux pat l.length l

/-- Drops leading whitespace; helper for the model of Python `str.strip`. -/
def dropSp : List Char → List Char
  | [] => []
  | c :: cs => if isSp c then dropSp cs else c :: cs

/-- Model of Python `s.strip()`: removes leading and trailing whitespace. -/
def trimChars (l : List Char) : List Char :=
  (dropSp (dropSp l).reverse).reverse

/-- Model of Python `s.lower()` (the handlers only meet ASCII keywords). -/
def lowerChars (l : List Char) : List Char := l.map Char.toLower

/-- Accumulator-based worker for the model of Python `s.split()`. -/
def splitAux : List Char → List Char → List (List Char)
  | [], acc => if acc = [] then [] else [acc.reverse]
  | c :: cs, acc =>
    if isSp c then
      if acc = [] then splitAux cs [] else acc.reverse :: splitAux cs []
    else
      splitAux cs (c :: acc)

/-- Model of Python `s.split()`: splits on whitespace runs, dropping empty
pieces. -/
def pySplit (l : List Char) : List (List Char) := splitAux l []

/-- Model of Python `' '.join(words)`. -/
def joinSp : List (List Char) → List Char
  | [] => []
  | [w] => w
  | w :: ws => w ++ ' ' :: joinSp ws

/-! ## The Gemini response object

Model of the dynamic structure probed by the handlers
(`response.candidates[0].content.parts`, `part.inline_data.data`,
`part.text`).  A missing or falsy Python attribute is `none`. -/

/-- Raw payload of an inline-data part: either a base64 string (Python
`str`) or raw bytes. -/
inductive RawData where
  | b64str (s : List Char)
  | raw (b : List Nat)
  deriving DecidableEq

/-- Model of `part.inline_data`; `data = none` means the object has no
`data` attribute. -/
structure InlineData where
  data : Option RawData
  deriving DecidableEq

/-- One part of a Gemini candidate's content.  `inline_data = none` models
an absent or falsy `inline_data` attribute; `text` likewise. -/
structure Part where
  inline_data : Option InlineData
  text : Option (List Char)
  deriving DecidableEq

/-- Model of `candidate.content`. -/
structure Content where
  parts : List Part
  deriving DecidableEq

/-- Model of one element of `response.candidates`; `content = none` models
a falsy content. -/
structure Candidate where
  content : Option Content
  deriving DecidableEq

/-- Model of the Gemini response object. -/
structure Response where
  candidates : List Candidate
  deriving DecidableEq

/-- Exceptions that can reach the handlers' outer `except Exception`
block: a network/API failure from `generate_content`, or a
`binascii.Error` from base64 decoding. -/
inductive PyExn where
  | genError
  | b64Error
  deriving DecidableEq

/-- Model of the part-scanning loop shared by the handlers
(main.py lines 552-568): the first part with truthy `inline_data` and a
`data` attribute yields the image bytes (base64-decoding string data);
parts without usable inline data are skipped.  A decoding failure
propagates as an exception. -/
def extractFromParts (b64 : List Char → Except PyExn (List Nat)) :
    List Part → Except PyExn (Option (List Nat))
  | [] => Except.ok none
  | p :: ps =>
    match p.inline_data with
    | some idata =>
      match idata.data with
      | some (RawData.b64str s) =>
        match b64 s with
        | Except.ok bytes => Except.ok (some bytes)
        | Except.error e => Except.error e
      | some (RawData.raw b) => Except.ok (some b)
      | none => extractFromParts b64 ps
    | none => extractFromParts b64 ps

/-- Model of the response-unpacking prologue (main.py lines 546-552):
take the first candidate, require truthy content, then scan its parts. -/
def extract_image_data (b64 : List Char → Except PyExn (List Nat))
    (r : Response) : Except PyExn (Option (List Nat)) :=
  match r.candidates with
  | [] => Except.ok none
  | cand :: _ =>
    match cand.content with
    | none => Except.ok none
    | some content => extractFromParts b64 content.parts

/-! ## External calls and message texts -/

/-- One external call made by a handler, in program order.  The two
queue-API constructors (`queueStatusCheck`, `queueResultFetch`) are the
status/result endpoints of the spec's remote queue API; the handlers in
src/main.py never issue them. -/
inductive NetCall where
  | tgReply (msg : List Char)
  | tgEdit (msg : List Char)
  | tgDelete
  | tgPhoto (data : List Nat) (caption : List Char)
  | genaiGenerate (p : List Char)
  | genaiEdit (p : List Char) (image : List Nat)
  | queueStatusCheck (jobId : List Char)
  | queueResultFetch (jobId : List Char)
  deriving DecidableEq

/-- True on calls to the generative-AI model. -/
def isGenCall : NetCall → Bool
  | NetCall.genaiGenerate _ => true
  | NetCall.genaiEdit _ _ => true
  | _ => false

/-- True on calls to the queue API's status or result endpoints. -/
def isQueueCall : NetCall → Bool
  | NetCall.queueStatusCheck _ => true
  | NetCall.queueResultFetch _ => true
  | _ => false

/-- Usage-error text of /imagine (main.py lines 487-490 and 499-502). -/
def usage_error_message : List Char :=
  ("❌ Please provide a description for the image you want to generate.\n" ++
   "Example: /imagine a cat sitting on a rainbow").toList

/-- Status text of /imagine (main.py line 511). -/
def generating_message : List Char :=
  "🎨 Generating your image, please wait...".toList

/-- Missing-API-key text of /imagine (main.py line 520). -/
def no_key_message : List Char :=
  "❌ Google API key is not configured. Please contact the bot administrator.".toList

/-- No-image-in-response text of /imagine (main.py line 572). -/
def no_image_gen_message : List Char :=
  "❌ Failed to generate image. The model may not support image generation or your prompt couldn\x27t be processed.".toList

/-- Text of the outer `except Exception` handler of /imagine
(main.py line 624). -/
def unexpected_error_message : List Char :=
  "❌ An unexpected error occurred while generating your image. Please try again.".toList

/-- Failed-send text of /imagine (main.py line 606). -/
def send_failed_message : List Char :=
  "❌ Failed to send the generated image. Please try again.".toList

/-- Caption of the photo sent by /imagine (main.py line 599). -/
def caption_for (text_prompt : List Char) : List Char :=
  "🎨 Generated image: \"".toList ++ text_prompt ++ "\"".toList

/-! ## The /imagine handler -/

/-- Success flags for each Telegram call site of the /imagine handler.
A `false` field means that call raises `TelegramError`; all failure
combinations are covered by quantifying over the environment. -/
structure TgEnv where
  replyUsageOk : Bool
  replyStatusOk : Bool
  editNoKeyOk : Bool
  replyNoKeyOk : Bool
  editNoImageOk : Bool
  replyNoImageOk : Bool
  replyPhotoOk : Bool
  editUnexpectedOk : Bool
  deriving DecidableEq

/-- Classification of how a run of /imagine ends. -/
inductive Outcome where
  | usageError
  | noApiKey
  | noImage
  | sent
  | sendFailed
  | unexpected
  deriving DecidableEq

/-- One complete run of /imagine: the ordered external calls, how the run
ended, and the temp-file lifecycle flags. -/
structure ImagineRun where
  trace : List NetCall
  outcome : Outcome
  tempCreated : Bool
  tempDeleted : Bool
  deriving DecidableEq

/-- Trace of the outer `except Exception` block of /imagine (main.py
lines 622-641): edit the status message if one exists, falling back to a
fresh reply when the edit raises; otherwise reply directly.  TelegramError
raised by these calls is swallowed. -/
def unexpectedTrace (env : TgEnv) (hasStatus : Bool) : List NetCall :=
  if hasStatus then
    if env.editUnexpectedOk then
      [NetCall.tgEdit unexpected_error_message]
    else
      [NetCall.tgEdit unexpected_error_message,
       NetCall.tgReply unexpected_error_message]
  else
    [NetCall.tgReply unexpected_error_message]

/-- The no-image branch of /imagine (main.py lines 570-578), taken when
`image_data` is falsy after the part scan — still `None`, or empty bytes:
edit the status message when one exists (a raise escaping to the outer
handler), else reply; no temp file is created. -/
def imagineNoImage (env : TgEnv) (text_prompt : List Char) : ImagineRun :=
  let t0 := [NetCall.tgReply generating_message]
  if env.replyStatusOk then
    if env.editNoImageOk then
      ⟨t0 ++ [NetCall.genaiGenerate text_prompt,
              NetCall.tgEdit no_image_gen_message],
       Outcome.noImage, false, false⟩
    else
      ⟨t0 ++ [NetCall.genaiGenerate text_prompt,
              NetCall.tgEdit no_image_gen_message] ++ unexpectedTrace env true,
       Outcome.unexpected, false, false⟩
  else
    if env.replyNoImageOk then
      ⟨t0 ++ [NetCall.genaiGenerate text_prompt,
              NetCall.tgReply no_image_gen_message],
       Outcome.noImage, false, false⟩
    else
      ⟨t0 ++ [NetCall.genaiGenerate text_prompt,
              NetCall.tgReply no_image_gen_message] ++ unexpectedTrace env false,
       Outcome.unexpected, false, false⟩

/-- Model of the /imagine handler (main.py lines 461-641).  The whole body
runs inside `try ... except Exception`, so a raising call site jumps to
`unexpectedTrace`.  Python's `if not image_data:` (main.py line 571) is a
falsiness test, so both a missing part and empty extracted bytes take the
no-image branch; only non-empty bytes reach the send path.  The temp file
written for the generated image is removed in the `finally` of the send
block, hence `tempDeleted = true` exactly on the branches with
`tempCreated = true`. -/
def imagine (env : TgEnv) (apiKeySet : Bool) (args : List (List Char))
    (gen : List Char → Except PyExn Response)
    (b64 : List Char → Except PyExn (List Nat)) : ImagineRun :=
  if args = [] then
    if env.replyUsageOk then
      ⟨[NetCall.tgReply usage_error_message], Outcome.usageError, false, false⟩
    else
      ⟨NetCall.tgReply usage_error_message :: unexpectedTrace env false,
       Outcome.unexpected, false, false⟩
  else
    let text_prompt := joinSp args
    if trimChars text_prompt = [] then
      if env.replyUsageOk then
        ⟨[NetCall.tgReply usage_error_message], Outcome.usageError, false, false⟩
      else
        ⟨NetCall.tgReply usage_error_message :: unexpectedTrace env false,
         Outcome.unexpected, false, false⟩
    else
      let hasStatus := env.replyStatusOk
      let t0 := [NetCall.tgReply generating_message]
      if apiKeySet = false then
        if hasStatus then
          if env.editNoKeyOk then
            ⟨t0 ++ [NetCall.tgEdit no_key_message], Outcome.noApiKey, false, false⟩
          else
            ⟨t0 ++ [NetCall.tgEdit no_key_message] ++ unexpectedTrace env true,
             Outcome.unexpected, false, false⟩
        else
          if env.replyNoKeyOk then
            ⟨t0 ++ [NetCall.tgReply no_key_message], Outcome.noApiKey, false, false⟩
          else
            ⟨t0 ++ [NetCall.tgReply no_key_message] ++ unexpectedTrace env false,
             Outcome.unexpected, false, false⟩
      else
        match gen text_prompt with
        | Except.error _ =>
          ⟨t0 ++ [NetCall.genaiGenerate text_prompt] ++ unexpectedTrace env hasStatus,
           Outcome.unexpected, false, false⟩
        | Except.ok resp =>
          match extract_image_data b64 resp with
          | Except.error _ =>
            ⟨t0 ++ [NetCall.genaiGenerate text_prompt] ++ unexpectedTrace env hasStatus,
             Outcome.unexpected, false, false⟩
          | Except.ok none => imagineNoImage env text_prompt
          | Except.ok (some image_data) =>
            if image_data = [] then
              imagineNoImage env text_prompt
            else
              let tDel := if hasStatus then [NetCall.tgDelete] else []
              if env.replyPhotoOk then
                ⟨t0 ++ [NetCall.genaiGenerate text_prompt] ++ tDel ++
                   [NetCall.tgPhoto image_data (caption_for text_prompt)],
                 Outcome.sent, true, true⟩
              else
                ⟨t0 ++ [NetCall.genaiGenerate text_prompt] ++ tDel ++
                   [NetCall.tgPhoto image_data (caption_for text_prompt),
                    NetCall.tgReply send_failed_message],
                 Outcome.sendFailed, true, true⟩

/-! ## The /edit handler and the stored image context -/

/-- Where /edit got its input image from. -/
inductive ImageSource where
  | fromMessage (p : Nat)
  | fromReply (p : Nat)
  | fromContext (b : List Nat)
  deriving DecidableEq

/-- Model of the `user_image_context` fallback of /edit (main.py lines
686-689): Python's `user_id and user_id in user_image_context and
'image_data' in user_image_context[user_id]`; a zero id is falsy. -/
def ctxSource (uid : Option Nat) (ctx : Nat → Option (List Nat)) :
    Option ImageSource :=
  match uid with
  | none => none
  | some u => if u = 0 then none else (ctx u).map ImageSource.fromContext

/-- Model of the image-resolution chain of /edit (main.py lines 678-689):
a photo attached to the command message (highest resolution, i.e. last),
else the photo of the replied-to message, else the sender's stored image
context.  `replyPhotos = none` models the absence of a replied-to message. -/
def edit_image_source (msgPhotos : List Nat) (replyPhotos : Option (List Nat))
    (uid : Option Nat) (ctx : Nat → Option (List Nat)) : Option ImageSource :=
  match msgPhotos.getLast? with
  | some p => some (ImageSource.fromMessage p)
  | none =>
    match replyPhotos with
    | some rp =>
      match rp.getLast? with
      | some p => some (ImageSource.fromReply p)
      | none => ctxSource uid ctx
    | none => ctxSource uid ctx

/-- Classification of how a run of /edit ends. -/
inductive EditOutcome where
  | noArgs
  | noImage
  | noApiKey
  | editFailedNoData
  | sentEdited
  | unexpectedEdit
  deriving DecidableEq

/-- Usage text of /edit (main.py lines 663-669). -/
def edit_usage_message : List Char :=
  ("📝 Rasm tahrirlash uchun:\n\n" ++
   "1. Rasmni yuboring va caption sifatida: /edit [tavsif]\n" ++
   "2. Yoki avval rasmni yuboring, keyin /edit [tavsif] yozing\n\n" ++
   "Misol: /edit realistic qiling\n" ++
   "Misol: /edit rangi qizil qiling").toList

/-- No-image text of /edit (main.py lines 692-698). -/
def no_image_error_message : List Char :=
  ("❌ Rasm topilmadi!\n\n" ++
   "Iltimos:\n" ++
   "• Rasm yuboring va caption sifatida /edit [tavsif] yozing\n" ++
   "• Yoki rasmga javob sifatida /edit [tavsif] yozing\n" ++
   "• Yoki avval rasm yuboring, keyin /edit buyruqini ishlating").toList

/-- Status text of /edit (main.py line 707). -/
def editing_message : List Char :=
  "🔄 Rasmni tahrirlayapman, iltimos kuting...".toList

/-- Missing-API-key text of /edit (main.py line 715). -/
def edit_no_key_message : List Char :=
  "❌ Google API key sozlanmagan. Bot administratori bilan bog\x27laning.".toList

/-- No-image-in-response text of /edit (main.py line 782). -/
def edit_failed_message : List Char :=
  "❌ Rasmni tahrirlashda xatolik yuz berdi. Iltimos qayta urinib ko\x27ring.".toList

/-- Text of the outer `except Exception` handler of /edit (main.py
line 834). -/
def edit_unexpected_message : List Char :=
  "❌ Rasmni tahrirlashda kutilmagan xatolik yuz berdi. Iltimos qayta urinib ko\x27ring.".toList

/-- Leading text of the Gemini editing prompt (main.py line 740). -/
def edit_prompt_lead : List Char := "Bu rasmni tahrirlang: ".toList

/-- Caption of the photo sent by /edit (main.py line 809). -/
def edit_caption (edit_instruction : List Char) : List Char :=
  "✨ Tahrirlangan rasm: \"".toList ++ edit_instruction ++ "\"".toList

/-- Model of the /edit handler (main.py lines 644-851).  Telegram send
operations are modelled as succeeding here (their failure modes are
exercised in the /imagine embedding); `download` is the Telegram
`get_file`/`download_as_bytearray` oracle used when the image does not
come from the stored context.  Python's `if not image_data:` (main.py
line 781) is a falsiness test, so both a missing part and empty extracted
bytes take the edit-failed branch; only non-empty bytes are sent. -/
def edit_image (apiKeySet : Bool)
    (genEdit : List Char → List Nat → Except PyExn Response)
    (b64 : List Char → Except PyExn (List Nat)) (download : Nat → List Nat)
    (args : List (List Char)) (msgPhotos : List Nat)
    (replyPhotos : Option (List Nat)) (uid : Option Nat)
    (ctx : Nat → Option (List Nat)) : List NetCall × EditOutcome :=
  if args = [] then
    ([NetCall.tgReply edit_usage_message], EditOutcome.noArgs)
  else
    let edit_instruction := joinSp args
    match edit_image_source msgPhotos replyPhotos uid ctx with
    | none => ([NetCall.tgReply no_image_error_message], EditOutcome.noImage)
    | some src =>
      let image_bytes :=
        match src with
        | ImageSource.fromContext b => b
        | ImageSource.fromMessage p => download p
        | ImageSource.fromReply p => download p
      let t0 := [NetCall.tgReply editing_message]
      if apiKeySet = false then
        (t0 ++ [NetCall.tgEdit edit_no_key_message], EditOutcome.noApiKey)
      else
        let editing_prompt := edit_prompt_lead ++ edit_instruction
        match genEdit editing_prompt image_bytes with
        | Except.error _ =>
          (t0 ++ [NetCall.genaiEdit editing_prompt image_bytes,
                  NetCall.tgEdit edit_unexpected_message],
           EditOutcome.unexpectedEdit)
        | Except.ok resp =>
          match extract_image_data b64 resp with
          | Except.error _ =>
            (t0 ++ [NetCall.genaiEdit editing_prompt image_bytes,
                    NetCall.tgEdit edit_unexpected_message],
             EditOutcome.unexpectedEdit)
          | Except.ok none =>
            (t0 ++ [NetCall.genaiEdit editing_prompt image_bytes,
                    NetCall.tgEdit edit_failed_message],
             EditOutcome.editFailedNoData)
          | Except.ok (some d) =>
            if d = [] then
              (t0 ++ [NetCall.genaiEdit editing_prompt image_bytes,
                      NetCall.tgEdit edit_failed_message],
               EditOutcome.editFailedNoData)
            else
              (t0 ++ [NetCall.genaiEdit editing_prompt image_bytes,
                      NetCall.tgDelete,
                      NetCall.tgPhoto d (edit_caption edit_instruction)],
               EditOutcome.sentEdited)

/-- State effect of the photo handler on the module-level
`user_image_context` global (main.py lines 1186-1190): after a successful
download, the sender's entry is overwritten with the fresh image bytes. -/
def handle_photo_stores (uid : Nat) (bytes : List Nat)
    (ctx : Nat → Option (List Nat)) : Nat → Option (List Nat) :=
  fun u => if u = uid then some bytes else ctx u

/-! ## The stored-image text-command router -/

/-- Keyword `tahrir` (main.py line 1330). -/
def tahrirKw : List Char := "tahrir".toList

/-- Keyword `edit` (main.py line 1330). -/
def editWordKw : List Char := "edit".toList

/-- Keyword `o'zgartir` (main.py line 1330). -/
def ozgartirAposKw : List Char := "o\x27zgartir".toList

/-- Keyword `ozgartir` (main.py line 1330). -/
def ozgartirKw : List Char := "ozgartir".toList

/-- The analysis-branch keywords (main.py line 1324). -/
def analysisKws : List (List Char) :=
  ["tahlil".toList, "analiz".toList, "batafsil".toList,
   "ko\x27ring".toList, "koring".toList]

/-- The edit-branch keywords, in the order the source replaces them
(main.py lines 1330 and 1335). -/
def editKws : List (List Char) :=
  [tahrirKw, editWordKw, ozgartirAposKw, ozgartirKw]

/-- The text-extraction-branch keywords (main.py line 1354). -/
def textReadKws : List (List Char) :=
  ["matn".toList, "text".toList, "o\x27qi".toList, "oqi".toList, "yoz".toList]

/-- The similar-image-branch keywords (main.py line 1360). -/
def similarKws : List (List Char) :=
  ["o\x27xshash".toList, "oxshash".toList, "yarating".toList,
   "similar".toList, "create".toList]

/-- The command marker checked by `startswith` (main.py line 1320). -/
def slashChar : List Char := ['/']

/-- The fallback edit instruction (main.py line 1338). -/
def default_edit_instruction : List Char := "realistic va chiroyli qiling".toList

/-- Detailed-analysis prompt (main.py line 1328). -/
def analysis_prompt : List Char :=
  "Bu rasmni batafsil tahlil qiling. Ranglar, obyektlar, kompozitsiya, kayfiyat va boshqa muhim xususiyatlar haqida to\x27liq ma\x27lumot bering.".toList

/-- Text-extraction prompt (main.py line 1358). -/
def text_read_prompt : List Char :=
  "Bu rasmdagi barcha matnni o\x27qing va to\x27liq yozing. Agar matn yo\x27q bo\x27lsa, \x27Rasmdagi matn topilmadi\x27 deb yozing.".toList

/-- Similar-image prompt (main.py line 1364). -/
def similar_prompt : List Char :=
  "Bu rasmni tasvirlab bering va xuddi shunday rasm yaratish uchun ingliz tilidagi prompt tuzing. Faqat ingliz tilidagi prompt bering.".toList

/-- Leading text of the general-request prompt (main.py line 1370). -/
def general_prompt_lead : List Char :=
  "Bu rasm haqida quyidagi so\x27rovni bajaring: ".toList

/-- Which branch of `handle_image_command` a message is routed to. -/
inductive ImageCmdRoute where
  | noUser
  | noStoredImage
  | noApiKey
  | commandSkip
  | analysisRoute (p : List Char)
  | callEdit (args : List (List Char))
  | textReadRoute (p : List Char)
  | similarRoute (p : List Char)
  | generalRoute (p : List Char)
  deriving DecidableEq

/-- Model of the routing logic of `handle_image_command` (main.py lines
1272-1370): only runs for users with a stored image; lowercases and strips
the message; skips slash-commands; dispatches on keyword groups in source
order; in the edit branch strips the four edit keywords from the text,
substituting the fixed fallback instruction when nothing remains, and
hands the split instruction to /edit. -/
def handle_image_command (apiKeySet : Bool) (uid : Option Nat)
    (ctx : Nat → Option (List Nat)) (msgText : List Char) : ImageCmdRoute :=
  match uid with
  | none => ImageCmdRoute.noUser
  | some u =>
    if u = 0 then ImageCmdRoute.noUser
    else
      match ctx u with
      | none => ImageCmdRoute.noStoredImage
      | some _ =>
        let user_text := trimChars (lowerChars msgText)
        if apiKeySet = false then ImageCmdRoute.noApiKey
        else if startsWith slashChar user_text then ImageCmdRoute.commandSkip
        else if analysisKws.any (fun k => hasSub k user_text) then
          ImageCmdRoute.analysisRoute analysis_prompt
        else if editKws.any (fun k => hasSub k user_text) then
          let instr := trimChars (replaceAll ozgartirKw (replaceAll ozgartirAposKw
            (replaceAll editWordKw (replaceAll tahrirKw user_text))))
          let instr2 := if instr = [] then default_edit_instruction else instr
          ImageCmdRoute.callEdit (pySplit instr2)
        else if textReadKws.any (fun k => hasSub k user_text) then
          ImageCmdRoute.textReadRoute text_read_prompt
        else if similarKws.any (fun k => hasSub k user_text) then
          ImageCmdRoute.similarRoute similar_prompt
        else
          ImageCmdRoute.generalRoute (general_prompt_lead ++ user_text)

/-! ## The daily-post tip selector -/

/-- One entry of the tip database. -/
structure Tip where
  title : String
  content : String
  prompt_example : String
  tip : String
  deriving DecidableEq

/-- The tip database (main.py lines 70-131). -/
def NANO_BANANA_TIPS : List Tip :=
  [⟨"🍌 Nano Banana nima?",
    "Nano Banana - Google\x27ning Gemini 2.5 Flash Image Preview modeli. Bu eng yangi AI texnologiyasi bo\x27lib, bir necha soniyada ajoyib rasmlar yaratadi!",
    "/imagine chiroyli ko\x27k osmon va oq bulutlar",
    "Oddiy so\x27zlar bilan ham ajoyib natijalar olishingiz mumkin!"⟩,
   ⟨"🎨 Rasm yaratish sirlari",
    "Nano Banana bilan mukammal rasm yaratish uchun batafsil tavsif bering. Ranglar, stil, ob-havo, his-tuyg\x27ularni tasvirlab bering.",
    "/imagine yashil o\x27rmon ichida kichik ariq, quyosh nurlari daraxt barglari orasidan tushmoqda, bahor faslida, tinch va osoyishta",
    "Qancha ko\x27proq detallar - shuncha yaxshi natija!"⟩,
   ⟨"✨ Stil va uslublar",
    "Nano Banana turli xil rassom uslublarini taqlid qila oladi. Van Gogh, Picasso, anime, realistic va boshqa ko\x27plab stillar mavjud!",
    "/imagine mushuk Van Gogh uslubida",
    "Sevimli rassomingiz uslubini sinab ko\x27ring!"⟩,
   ⟨"🏞️ Peyzaj rasmlari",
    "Nano Banana ajoyib peyzajlar yaratishda mohir. Tog\x27lar, dengizlar, o\x27rmonlar, shaharlar - barchasi mumkin!",
    "/imagine olov tog\x27i yonida tinch ko\x27l, yulduzli tun",
    "Tabiat manzaralarida vaqt va ob-havoni ham ko\x27rsating!"⟩,
   ⟨"👥 Portret rasmlari",
    "Nano Banana odamlar, hayvonlar va fantastik mavjudotlarning ajoyib portretlarini yaratadi. Yuz ifodalari va hissiyotlarga alohida e\x27tibor bering.",
    "/imagine yosh qiz kulayotgan, baxtli, chiroyli ko\x27zlar",
    "His-tuyg\x27ularni tasvirlab bering - kulgi, g\x27am, hayrat va boshqalar"⟩,
   ⟨"🔮 Fantastik dunyolar",
    "Nano Banana sizning tasavvuringizni haqiqatga aylantiradi. Sehrli dunyolar, ajdaholar, peri masallari - hamma narsa mumkin!",
    "/imagine sehrli qal\x27a bulutlar ustida, flying dragons",
    "Xayolingizni erkin qo\x27yib bering - imkonsiz narsa yo\x27q!"⟩,
   ⟨"🎭 Rasm tahrirlash",
    "Mavjud rasmlarni Nano Banana bilan takomillashtirishingiz mumkin. /edit buyrug\x27i bilan rasmlarni o\x27zgartiring!",
    "Rasm yuboring va: /edit realistic qiling",
    "Rasm yuborib keyin tahrirlash ko\x27rsatmasini bering!"⟩,
   ⟨"🌈 Ranglar bilan o\x27ynash",
    "Nano Banana ranglar palitrasida mohir. Issiq ranglar (qizil, sariq), sovuq ranglar (ko\x27k, yashil) yoki monoxrom uslubni sinang.",
    "/imagine gul bog\x27i faqat pushti va oq rangda",
    "Rang sxemasini oldindan o\x27ylang - bu rasimga maxsus kayfiyat beradi!"⟩,
   ⟨"⚡ Tez natijalarga erishish",
    "Nano Banana juda tez ishlaydi! Bir necha soniyada professional darajadagi rasmlar olasiz.",
    "/imagine tez otlarda chevlar",
    "Sabr qilishga hojat yo\x27q - natija darhol tayyor!"⟩,
   ⟨"🎪 Interaktiv rejim",
    "Nano Banana bilan suhbat quring! U sizning rasmlaringizni tahlil qiladi va takomillashtirish bo\x27yicha maslahat beradi.",
    "Rasm yuboring: \x27Bu rasm haqida nima deyasiz?\x27",
    "AI bilan suhbatlashib, san\x27at haqida yangi narsalarni o\x27rganing!"⟩]

/-- Tip selection and index update of `generate_daily_post` (main.py
lines 146-150): read the tip at the current global index and advance the
index cyclically.  A Python `IndexError` on an out-of-range index is
`none`.  The post-text formatting and the random image-prompt choice of
the remainder of the function (main.py lines 153-185) depend on
`random.choice` and environment variables and carry no tip-selection
state, so they are not part of this definition. -/
def generate_daily_post (last_posted_tip_index : Nat) : Option (Tip × Nat) :=
  match NANO_BANANA_TIPS.get? last_posted_tip_index with
  | none => none
  | some tip => some (tip, (last_posted_tip_index + 1) % NANO_BANANA_TIPS.length)

/-- The tips returned by `n` consecutive calls of `generate_daily_post`,
threading the global index. -/
def runDaily : Nat → Nat → List Tip
  | 0, _ => []
  | n + 1, i =>
    match generate_daily_post i with
    | none => []
    | some (t, i2) => t :: runDaily n i2

/-! ## The queued-job poller, modelled from the spec

src/ contains only the synchronous Gemini variant of the bot; the
queue-based submit/poll client the spec describes has no code under src/.
The definitions below follow spec section 4.1 verbatim. -/

/-- Modelled from the spec: the externally-reported job status enumeration
(spec section 3); the repository's queue-API variant is not under src/. -/
inductive QueueStatus where
  | Queued
  | InProgress
  | Completed
  | Failed
  | Cancelled
  deriving DecidableEq

/-- Modelled from the spec: a successful generation result (one or more
artifact URLs, spec section 3). -/
structure GenResult where
  urls : List (List Char)
  deriving DecidableEq

/-- Modelled from the spec: the three shapes a submission response can
take (spec section 4.1 steps 2-4): synchronous completion, acceptance
with an optional job identifier, or any other status code. -/
inductive SubmitResponse where
  | syncResult (r : GenResult)
  | acceptedResp (jobId : Option (List Char))
  | otherResp (code : Nat) (body : List Char)
  deriving DecidableEq

/-- Modelled from the spec: one status-endpoint reply — a reported status,
or a transient network error (spec section 4.1 step 5). -/
inductive StatusCheckResult where
  | gotStatus (s : QueueStatus)
  | transientError
  deriving DecidableEq

/-- Modelled from the spec: the result-endpoint reply for a completed job
(spec section 4.1 step 5, `Completed` case). -/
inductive FetchOutcome where
  | fetched (r : GenResult)
  | fetchFailed
  deriving DecidableEq

/-- Modelled from the spec: the typed failure taxonomy (spec section 7). -/
inductive JobError where
  | ProtocolError
  | RequestRejected (code : Nat) (body : List Char)
  | JobFailed (s : QueueStatus)
  | ResultFetchError
  | PollTimeout
  deriving DecidableEq

/-- Modelled from the spec: the remote queue API as an oracle — the
submission reply, the reply of the `k`-th status call (0-based), and the
result-endpoint reply. -/
structure QueueEnv where
  submitResp : SubmitResponse
  statusAt : Nat → StatusCheckResult
  fetchResp : FetchOutcome

deriving instance DecidableEq for Except

/-- One complete run of the poller: the typed result, and how many
status-endpoint and result-endpoint calls were made. -/
structure PollRun where
  result : Except JobError GenResult
  statusCalls : Nat
  fetchCalls : Nat
  deriving DecidableEq

/-- Modelled from the spec: the poll loop (spec section 4.1 step 5) —
up to `n` more iterations, `made` status calls so far.  `Completed`
queries the result endpoint once; `Failed`/`Cancelled` fail immediately
with `JobFailed`; `Queued`/`InProgress`/transient errors retry; an
exhausted budget is `PollTimeout` (step 6). -/
def pollLoop (env : QueueEnv) : Nat → Nat → PollRun
  | 0, made => ⟨Except.error JobError.PollTimeout, made, 0⟩
  | n + 1, made =>
    match env.statusAt made with
    | StatusCheckResult.gotStatus QueueStatus.Completed =>
      match env.fetchResp with
      | FetchOutcome.fetched r => ⟨Except.ok r, made + 1, 1⟩
      | FetchOutcome.fetchFailed =>
        ⟨Except.error JobError.ResultFetchError, made + 1, 1⟩
    | StatusCheckResult.gotStatus QueueStatus.Failed =>
      ⟨Except.error (JobError.JobFailed QueueStatus.Failed), made + 1, 0⟩
    | StatusCheckResult.gotStatus QueueStatus.Cancelled =>
      ⟨Except.error (JobError.JobFailed QueueStatus.Cancelled), made + 1, 0⟩
    | StatusCheckResult.gotStatus QueueStatus.Queued => pollLoop env n (made + 1)
    | StatusCheckResult.gotStatus QueueStatus.InProgress => pollLoop env n (made + 1)
    | StatusCheckResult.transientError => pollLoop env n (made + 1)

/-- Modelled from the spec: `submit_and_await` (spec section 4.1) — a
synchronous reply returns directly with no polling; an accepted reply
without a job identifier is `ProtocolError`; any other status is
`RequestRejected`; otherwise the poll loop runs under the attempt budget. -/
def submit_and_await (env : QueueEnv) (max_attempts : Nat) : PollRun :=
  match env.submitResp with
  | SubmitResponse.syncResult r => ⟨Except.ok r, 0, 0⟩
  | SubmitResponse.acceptedResp none => ⟨Except.error JobError.ProtocolError, 0, 0⟩
  | SubmitResponse.acceptedResp (some _) => pollLoop env max_attempts 0
  | SubmitResponse.otherResp c b => ⟨Except.error (JobError.RequestRejected c b), 0, 0⟩

/-! ## Concrete instantiations used by closed theorems -/

/-- The empty `user_image_context`. -/
def emptyCtx : Nat → Option (List Nat) := fun _ => none

/-- A generative-AI oracle whose call raises a network error. -/
def genFailStub : List Char → List Nat → Except PyExn Response :=
  fun _ _ => Except.error PyExn.genError

/-- A generative-AI oracle returning a response with no candidates. -/
def genEmptyStub : List Char → Except PyExn Response :=
  fun _ => Except.ok ⟨[]⟩

/-- A base64 oracle that decodes everything to no bytes. -/
def b64Stub : List Char → Except PyExn (List Nat) := fun _ => Except.ok []

/-- A response with one candidate holding one raw inline-data part. -/
def respOnePart : Response :=
  ⟨[⟨some ⟨[⟨some ⟨some (RawData.raw [9])⟩, none⟩]⟩⟩]⟩

/-- A generative-AI oracle returning `respOnePart`. -/
def genOnePartStub : List Char → Except PyExn Response :=
  fun _ => Except.ok respOnePart

/-- A download oracle returning no bytes. -/
def dlStub : Nat → List Nat := fun _ => []

/-- An all-success Telegram environment. -/
def tgAllOk : TgEnv := ⟨true, true, true, true, true, true, true, true⟩

/-- A queue environment that accepts the job and reports `Queued` forever. -/
def queueEnvQueued : QueueEnv :=
  ⟨SubmitResponse.acceptedResp (some ['j']),
   fun _ => StatusCheckResult.gotStatus QueueStatus.Queued,
   FetchOutcome.fetchFailed⟩

/-- A queue environment that accepts the job, reports `InProgress` once and
then `Failed`. -/
def queueEnvFailAt1 : QueueEnv :=
  ⟨SubmitResponse.acceptedResp (some ['j']),
   fun k => if k = 1 then StatusCheckResult.gotStatus QueueStatus.Failed
            else StatusCheckResult.gotStatus QueueStatus.InProgress,
   FetchOutcome.fetched ⟨[]⟩⟩

/-! # Lemmas about the string primitives -/

theorem startsWith_eq_append :
    ∀ (p l : List Char), startsWith p l = true → l = p ++ l.drop p.length := by
  intro p
  induction p with
  | nil =>
    intro l _
    simp
  | cons a as ih =>
    intro l h
    match l with
    | [] => simp [startsWith] at h
    | c :: cs =>
      simp only [startsWith, Bool.and_eq_true, decide_eq_true_eq] at h
      obtain ⟨rfl, h2⟩ := h
      have h3 := ih cs h2
      simp only [List.cons_append, List.length_cons, List.drop_succ_cons]
      exact congrArg (a :: ·) h3

theorem mem_of_hasSub {pat l : List Char} {c : Char}
    (h : hasSub pat l = true) (hc : c ∈ pat) : c ∈ l := by
  induction l with
  | nil =>
    simp only [hasSub, List.isEmpty_iff] at h
    subst h
    cases hc
  | cons x xs ih =>
    simp only [hasSub, Bool.or_eq_true] at h
    rcases h with h | h
    · rw [startsWith_eq_append pat (x :: xs) h]
      exact List.mem_append_left _ hc
    · exact List.mem_cons_of_mem _ (ih h)

theorem mem_replaceAllAux {pat : List Char} {c : Char} (hcp : c ∉ pat) :
    ∀ (fuel : Nat) (l : List Char), c ∈ l → c ∈ replaceAllAux pat fuel l := by
  intro fuel
  induction fuel with
  | zero =>
    intro l hc
    cases l with
    | nil => cases hc
    | cons x xs => simpa [replaceAllAux] using hc
  | succ fuel ih =>
    intro l hc
    cases l with
    | nil => cases hc
    | cons x xs =>
      simp only [replaceAllAux]
      split
      · next h =>
        rw [Bool.and_eq_true] at h
        rw [startsWith_eq_append pat (x :: xs) h.1] at hc
        rcases List.mem_append.mp hc with hmem | hmem
        · exact absurd hmem hcp
        · exact ih _ hmem
      · next h =>
        rcases List.mem_cons.mp hc with rfl | hmem
        · exact List.mem_cons_self _ _
        · exact List.mem_cons_of_mem _ (ih xs hmem)

theorem mem_replaceAll {pat l : List Char} {c : Char}
    (hc : c ∈ l) (hcp : c ∉ pat) : c ∈ replaceAll pat l :=
  mem_replaceAllAux hcp l.length l hc

theorem mem_dropSp_or :
    ∀ (l : List Char) (c : Char), c ∈ l → c ∈ dropSp l ∨ isSp c = true := by
  intro l
  induction l with
  | nil =>
    intro c hc
    cases hc
  | cons x xs ih =>
    intro c hc
    simp only [dropSp]
    by_cases hx : isSp x
    · rw [if_pos hx]
      rcases List.mem_cons.mp hc with rfl | hmem
      · exact Or.inr hx
      · exact ih c hmem
    · rw [if_neg hx]
      exact Or.inl hc

theorem all_space_of_trim_empty {l : List Char} (h : trimChars l = []) :
    ∀ c ∈ l, isSp c = true := by
  intro c hc
  unfold trimChars at h
  have h1 : dropSp (dropSp l).reverse = [] := by
    have h2 := congrArg List.reverse h
    simpa using h2
  rcases mem_dropSp_or l c hc with hmem | hsp
  · rcases mem_dropSp_or (dropSp l).reverse c (List.mem_reverse.mpr hmem) with hmem2 | hsp2
    · rw [h1] at hmem2
      cases hmem2
    · exact hsp2
  · exact hsp

/-! # Lemmas about traces -/

theorem countP_gen_unexpectedTrace (env : TgEnv) (b : Bool) :
    List.countP isGenCall (unexpectedTrace env b) = 0 := by
  unfold unexpectedTrace
  cases b <;> cases env.editUnexpectedOk <;>
    simp [List.countP_cons, isGenCall]

theorem countP_queue_unexpectedTrace (env : TgEnv) (b : Bool) :
    List.countP isQueueCall (unexpectedTrace env b) = 0 := by
  unfold unexpectedTrace
  cases b <;> cases env.editUnexpectedOk <;>
    simp [List.countP_cons, isQueueCall]

theorem mem_unexpectedTrace (env : TgEnv) (b : Bool) :
    NetCall.tgEdit unexpected_error_message ∈ unexpectedTrace env b ∨
    NetCall.tgReply unexpected_error_message ∈ unexpectedTrace env b := by
  unfold unexpectedTrace
  cases b <;> cases env.editUnexpectedOk <;> simp

theorem countP_gen_imagineNoImage (env : TgEnv) (p : List Char) :
    List.countP isGenCall (imagineNoImage env p).trace = 1 := by
  unfold imagineNoImage
  cases hA : env.replyStatusOk <;> cases hB : env.editNoImageOk <;>
    cases hC : env.replyNoImageOk <;>
    simp [List.countP_cons, isGenCall, countP_gen_unexpectedTrace]

theorem countP_queue_imagineNoImage (env : TgEnv) (p : List Char) :
    List.countP isQueueCall (imagineNoImage env p).trace = 0 := by
  unfold imagineNoImage
  cases hA : env.replyStatusOk <;> cases hB : env.editNoImageOk <;>
    cases hC : env.replyNoImageOk <;>
    simp [List.countP_cons, isQueueCall, countP_queue_unexpectedTrace]

theorem imagineNoImage_no_temp (env : TgEnv) (p : List Char) :
    (imagineNoImage env p).tempCreated = false ∧
    (imagineNoImage env p).tempDeleted = false := by
  unfold imagineNoImage
  cases hA : env.replyStatusOk <;> cases hB : env.editNoImageOk <;>
    cases hC : env.replyNoImageOk <;> simp

/-! # Lemmas about the poll loop -/

theorem pollLoop_timeout (env : QueueEnv) :
    ∀ (n made : Nat),
      (∀ k, made ≤ k → k < made + n →
        env.statusAt k = StatusCheckResult.gotStatus QueueStatus.Queued ∨
        env.statusAt k = StatusCheckResult.gotStatus QueueStatus.InProgress) →
      pollLoop env n made = ⟨Except.error JobError.PollTimeout, made + n, 0⟩ := by
  intro n
  induction n with
  | zero =>
    intro made _
    simp [pollLoop]
  | succ n ih =>
    intro made h
    have h0 := h made (Nat.le_refl _) (by omega)
    have hrec := ih (made + 1) (fun k hk1 hk2 => h k (by omega) (by omega))
    rw [show made + (n + 1) = made + 1 + n by omega]
    rcases h0 with h0 | h0 <;> simp only [pollLoop, h0] <;> exact hrec

theorem pollLoop_failfast (env : QueueEnv) (s : QueueStatus)
    (hs : s = QueueStatus.Failed ∨ s = QueueStatus.Cancelled) :
    ∀ (i n made : Nat), i < n →
      (∀ k, made ≤ k → k < made + i →
        env.statusAt k = StatusCheckResult.gotStatus QueueStatus.Queued ∨
        env.statusAt k = StatusCheckResult.gotStatus QueueStatus.InProgress ∨
        env.statusAt k = StatusCheckResult.transientError) →
      env.statusAt (made + i) = StatusCheckResult.gotStatus s →
      pollLoop env n made =
        ⟨Except.error (JobError.JobFailed s), made + i + 1, 0⟩ := by
  intro i
  induction i with
  | zero =>
    intro n made hin hpre hfail
    match n, hin with
    | n + 1, _ =>
      rw [Nat.add_zero] at hfail ⊢
      rcases hs with rfl | rfl <;> simp only [pollLoop, hfail]
  | succ i ih =>
    intro n made hin hpre hfail
    match n, hin with
    | n + 1, _ =>
      have h0 := hpre made (Nat.le_refl _) (by omega)
      have hrec := ih n (made + 1) (by omega)
        (fun k hk1 hk2 => hpre k (by omega) (by omega))
        (by rw [show made + 1 + i = made + (i + 1) by omega]; exact hfail)
      rw [show made + (i + 1) + 1 = made + 1 + i + 1 by omega]
      rcases h0 with h0 | h0 | h0 <;> simp only [pollLoop, h0] <;> exact hrec

/-! # The claims -/

/-- C9: the daily-post tip selector is a round-robin over the fixed tip
list — each call returns the tip at the pre-call index, the updated global
index stays in `[0, number of tips)`, and a run of as many consecutive
calls as there are tips returns each tip exactly once. -/
theorem daily_post_round_robin (i : Nat) (h : i < NANO_BANANA_TIPS.length) :
    generate_daily_post i =
      some (NANO_BANANA_TIPS.get ⟨i, h⟩, (i + 1) % NANO_BANANA_TIPS.length) ∧
    (i + 1) % NANO_BANANA_TIPS.length < NANO_BANANA_TIPS.length ∧
    List.Perm (runDaily NANO_BANANA_TIPS.length i) NANO_BANANA_TIPS := by
  refine ⟨?_, ?_, ?_⟩
  · unfold generate_daily_post
    rw [List.get?_eq_get h]
  · exact Nat.mod_lt _ (Nat.lt_of_le_of_lt (Nat.zero_le i) h)
  · have hrot : runDaily NANO_BANANA_TIPS.length i = NANO_BANANA_TIPS.rotate i := by
      have h10 : NANO_BANANA_TIPS.length = 10 := rfl
      rw [h10] at h ⊢
      interval_cases i <;> rfl
    rw [hrot]
    exact List.rotate_perm _ _

/-- Witness for C9 at index 0. -/
theorem daily_post_round_robin_witness :
    0 < NANO_BANANA_TIPS.length ∧
    List.Perm (runDaily NANO_BANANA_TIPS.length 0) NANO_BANANA_TIPS :=
  ⟨by decide, (daily_post_round_robin 0 (by decide)).2.2⟩

/-- C4: for an asynchronously accepted job whose status stays
`Queued`/`InProgress` for all of the first `max_attempts` checks,
`submit_and_await` ends in `PollTimeout` after exactly `max_attempts`
status calls (and no result fetch). -/
theorem submit_and_await_poll_timeout (env : QueueEnv) (max_attempts : Nat)
    (jobId : List Char) (hmax : 1 ≤ max_attempts)
    (hsub : env.submitResp = SubmitResponse.acceptedResp (some jobId))
    (hq : ∀ k, k < max_attempts →
      env.statusAt k = StatusCheckResult.gotStatus QueueStatus.Queued ∨
      env.statusAt k = StatusCheckResult.gotStatus QueueStatus.InProgress) :
    submit_and_await env max_attempts =
      ⟨Except.error JobError.PollTimeout, max_attempts, 0⟩ := by
  have h0 := pollLoop_timeout env max_attempts 0
    (fun k hk1 hk2 => hq k (by omega))
  simp only [submit_and_await, hsub]
  simpa using h0

/-- Witness for C4: three `Queued` checks, budget 3. -/
theorem submit_and_await_poll_timeout_witness :
    1 ≤ 3 ∧
    submit_and_await queueEnvQueued 3 =
      ⟨Except.error JobError.PollTimeout, 3, 0⟩ :=
  ⟨by decide,
   submit_and_await_poll_timeout queueEnvQueued 3 ['j'] (by decide) rfl (by decide)⟩

/-- C5: for an asynchronously accepted job, the first `Failed`/`Cancelled`
status check ends `submit_and_await` immediately with `JobFailed` carrying
that status; no further status checks and no result fetch happen after it. -/
theorem submit_and_await_failfast (env : QueueEnv) (max_attempts j : Nat)
    (s : QueueStatus) (jobId : List Char)
    (hs : s = QueueStatus.Failed ∨ s = QueueStatus.Cancelled)
    (hsub : env.submitResp = SubmitResponse.acceptedResp (some jobId))
    (hj : j < max_attempts)
    (hpre : ∀ k, k < j →
      env.statusAt k = StatusCheckResult.gotStatus QueueStatus.Queued ∨
      env.statusAt k = StatusCheckResult.gotStatus QueueStatus.InProgress ∨
      env.statusAt k = StatusCheckResult.transientError)
    (hfail : env.statusAt j = StatusCheckResult.gotStatus s) :
    submit_and_await env max_attempts =
      ⟨Except.error (JobError.JobFailed s), j + 1, 0⟩ := by
  have h0 := pollLoop_failfast env s hs j max_attempts 0 hj
    (fun k hk1 hk2 => hpre k (by omega)) (by simpa using hfail)
  simp only [submit_and_await, hsub]
  simpa using h0

/-- Witness for C5: `InProgress` then `Failed` at attempt 1, budget 3. -/
theorem submit_and_await_failfast_witness :
    1 < 3 ∧
    submit_and_await queueEnvFailAt1 3 =
      ⟨Except.error (JobError.JobFailed QueueStatus.Failed), 2, 0⟩ :=
  ⟨by decide,
   submit_and_await_failfast queueEnvFailAt1 3 1 QueueStatus.Failed ['j']
     (Or.inl rfl) rfl (by decide) (by decide) (by decide)⟩

/-- C2: an /imagine invocation whose prompt is empty after trimming (no
arguments, or arguments joining to whitespace) replies with the usage
error and makes no call to the generative-AI model; conversely the model
is only called when the prompt is non-empty after trimming. -/
theorem imagine_empty_prompt_no_model_call (env : TgEnv) (apiKeySet : Bool)
    (args : List (List Char)) (gen : List Char → Except PyExn Response)
    (b64 : List Char → Except PyExn (List Nat)) :
    ((args = [] ∨ trimChars (joinSp args) = []) →
      NetCall.tgReply usage_error_message ∈ (imagine env apiKeySet args gen b64).trace ∧
      List.countP isGenCall (imagine env apiKeySet args gen b64).trace = 0) ∧
    (0 < List.countP isGenCall (imagine env apiKeySet args gen b64).trace →
      args ≠ [] ∧ trimChars (joinSp args) ≠ []) := by
  by_cases h1 : args = []
  · have htr : NetCall.tgReply usage_error_message ∈ (imagine env apiKeySet args gen b64).trace ∧
        List.countP isGenCall (imagine env apiKeySet args gen b64).trace = 0 := by
      subst h1
      cases henv : env.replyUsageOk <;>
        simp [imagine, henv, List.countP_cons, isGenCall, countP_gen_unexpectedTrace]
    exact ⟨fun _ => htr, fun hpos => absurd htr.2 (by omega)⟩
  · by_cases h2 : trimChars (joinSp args) = []
    · have htr : NetCall.tgReply usage_error_message ∈ (imagine env apiKeySet args gen b64).trace ∧
          List.countP isGenCall (imagine env apiKeySet args gen b64).trace = 0 := by
        cases henv : env.replyUsageOk <;>
          simp [imagine, h1, h2, henv, List.countP_cons, isGenCall, countP_gen_unexpectedTrace]
      exact ⟨fun _ => htr, fun hpos => absurd htr.2 (by omega)⟩
    · refine ⟨fun hor => ?_, fun _ => ⟨h1, h2⟩⟩
      rcases hor with hor | hor
      · exact absurd hor h1
      · exact absurd hor h2

/-- Witness for C2 on an empty argument list. -/
theorem imagine_empty_prompt_no_model_call_witness :
    NetCall.tgReply usage_error_message ∈
      (imagine tgAllOk true [] genEmptyStub b64Stub).trace ∧
    List.countP isGenCall (imagine tgAllOk true [] genEmptyStub b64Stub).trace = 0 :=
  (imagine_empty_prompt_no_model_call tgAllOk true [] genEmptyStub b64Stub).1
    (Or.inl rfl)

/-- C3: a remote failure raised by the generative call (or while decoding
its result) is caught inside the /imagine handler and converted into the
user-visible unexpected-error outcome; no raw exception escapes — the
embedding of the handler is a total function into `ImagineRun`, mirroring
the `try ... except Exception` that wraps the whole body. -/
theorem imagine_remote_failure_converted (env : TgEnv)
    (args : List (List Char)) (gen : List Char → Except PyExn Response)
    (b64 : List Char → Except PyExn (List Nat)) (e : PyExn)
    (h1 : args ≠ []) (h2 : trimChars (joinSp args) ≠ [])
    (hfail : gen (joinSp args) = Except.error e ∨
      ∃ resp, gen (joinSp args) = Except.ok resp ∧
        extract_image_data b64 resp = Except.error e) :
    (imagine env true args gen b64).outcome = Outcome.unexpected ∧
    (NetCall.tgEdit unexpected_error_message ∈ (imagine env true args gen b64).trace ∨
     NetCall.tgReply unexpected_error_message ∈ (imagine env true args gen b64).trace) := by
  have htr : (imagine env true args gen b64).outcome = Outcome.unexpected ∧
      (imagine env true args gen b64).trace =
        NetCall.tgReply generating_message :: NetCall.genaiGenerate (joinSp args) ::
          unexpectedTrace env env.replyStatusOk := by
    rcases hfail with hfail | ⟨resp, hok, hext⟩
    · constructor <;> simp [imagine, h1, h2, hfail]
    · constructor <;> simp [imagine, h1, h2, hok, hext]
  refine ⟨htr.1, ?_⟩
  rw [htr.2]
  rcases mem_unexpectedTrace env env.replyStatusOk with hm | hm
  · exact Or.inl (by simp [hm])
  · exact Or.inr (by simp [hm])

/-- Witness for C3: a failing generative call on a valid prompt. -/
theorem imagine_remote_failure_converted_witness :
    ([['a']] : List (List Char)) ≠ [] ∧
    (imagine tgAllOk true [['a']]
      (fun _ => Except.error PyExn.genError) b64Stub).outcome = Outcome.unexpected :=
  ⟨by decide,
   (imagine_remote_failure_converted tgAllOk [['a']]
     (fun _ => Except.error PyExn.genError) b64Stub PyExn.genError
     (by decide) (by decide) (Or.inl rfl)).1⟩

/-- C1: when the generative call returns synchronously, /imagine makes
exactly one generative call and never touches the queue API's status or
result endpoints, and sends the extracted result directly whenever that
result is truthy (non-empty bytes; empty bytes take the handler's
no-image branch, main.py line 571). -/
theorem imagine_sync_no_polling (env : TgEnv) (args : List (List Char))
    (gen : List Char → Except PyExn Response)
    (b64 : List Char → Except PyExn (List Nat)) (resp : Response)
    (h1 : args ≠ []) (h2 : trimChars (joinSp args) ≠ [])
    (hgen : gen (joinSp args) = Except.ok resp) :
    List.countP isGenCall (imagine env true args gen b64).trace = 1 ∧
    List.countP isQueueCall (imagine env true args gen b64).trace = 0 ∧
    (∀ d, extract_image_data b64 resp = Except.ok (some d) → d ≠ [] →
      NetCall.tgPhoto d (caption_for (joinSp args)) ∈
        (imagine env true args gen b64).trace) := by
  cases hext : extract_image_data b64 resp with
  | error e =>
    refine ⟨?_, ?_, ?_⟩
    · simp [imagine, h1, h2, hgen, hext, List.countP_cons, isGenCall,
        countP_gen_unexpectedTrace]
    · simp [imagine, h1, h2, hgen, hext, List.countP_cons, isQueueCall,
        countP_queue_unexpectedTrace]
    · intro d hd hne
      simp at hd
  | ok od =>
    cases od with
    | none =>
      refine ⟨?_, ?_, ?_⟩
      · simp [imagine, h1, h2, hgen, hext, countP_gen_imagineNoImage]
      · simp [imagine, h1, h2, hgen, hext, countP_queue_imagineNoImage]
      · intro d hd hne
        simp at hd
    | some d0 =>
      by_cases hd0 : d0 = []
      · subst hd0
        refine ⟨?_, ?_, ?_⟩
        · simp [imagine, h1, h2, hgen, hext, countP_gen_imagineNoImage]
        · simp [imagine, h1, h2, hgen, hext, countP_queue_imagineNoImage]
        · intro d hd hne
          injection hd with hd2
          injection hd2 with hd3
          exact absurd hd3.symm hne
      · refine ⟨?_, ?_, ?_⟩
        · cases hA : env.replyStatusOk <;> cases hB : env.replyPhotoOk <;>
            simp [imagine, h1, h2, hgen, hext, hA, hB, hd0, List.countP_cons,
              isGenCall]
        · cases hA : env.replyStatusOk <;> cases hB : env.replyPhotoOk <;>
            simp [imagine, h1, h2, hgen, hext, hA, hB, hd0, List.countP_cons,
              isQueueCall]
        · intro d hd hne
          injection hd with hd2
          injection hd2 with hd3
          subst hd3
          cases hA : env.replyStatusOk <;> cases hB : env.replyPhotoOk <;>
            simp [imagine, h1, h2, hgen, hext, hA, hB, hd0]

/-- Witness for C1: a synchronous response with no candidates still means
one generative call and zero queue-endpoint calls. -/
theorem imagine_sync_no_polling_witness :
    ([['a']] : List (List Char)) ≠ [] ∧
    List.countP isGenCall (imagine tgAllOk true [['a']] genEmptyStub b64Stub).trace = 1 ∧
    List.countP isQueueCall (imagine tgAllOk true [['a']] genEmptyStub b64Stub).trace = 0 :=
  ⟨by decide,
   (imagine_sync_no_polling tgAllOk [['a']] genEmptyStub b64Stub ⟨[]⟩
     (by decide) (by decide) rfl).1,
   (imagine_sync_no_polling tgAllOk [['a']] genEmptyStub b64Stub ⟨[]⟩
     (by decide) (by decide) rfl).2.1⟩

/-- C8: /imagine leaves no local persistent state — on every run the
temporary image file is deleted exactly when it was created (in
particular on the send path, whether the send succeeds or raises), so
only the network calls of the trace remain as side effects; and the send
path (truthy extracted bytes, main.py line 571) does create the file. -/
theorem imagine_no_temp_leak (env : TgEnv) (apiKeySet : Bool)
    (args : List (List Char)) (gen : List Char → Except PyExn Response)
    (b64 : List Char → Except PyExn (List Nat)) :
    (imagine env apiKeySet args gen b64).tempDeleted =
      (imagine env apiKeySet args gen b64).tempCreated ∧
    ((args ≠ [] ∧ trimChars (joinSp args) ≠ [] ∧ apiKeySet = true ∧
      ∃ resp d, gen (joinSp args) = Except.ok resp ∧
        extract_image_data b64 resp = Except.ok (some d) ∧ d ≠ []) →
      (imagine env apiKeySet args gen b64).tempCreated = true) := by
  constructor
  · by_cases h1 : args = []
    · cases hA : env.replyUsageOk <;> simp [imagine, h1, hA]
    · by_cases h2 : trimChars (joinSp args) = []
      · cases hA : env.replyUsageOk <;> simp [imagine, h1, h2, hA]
      · cases apiKeySet with
        | false =>
          cases hA : env.replyStatusOk <;> cases hB : env.editNoKeyOk <;>
            cases hC : env.replyNoKeyOk <;> simp [imagine, h1, h2, hA, hB, hC]
        | true =>
          cases hg : gen (joinSp args) with
          | error e => simp [imagine, h1, h2, hg]
          | ok resp =>
            cases hext : extract_image_data b64 resp with
            | error e => simp [imagine, h1, h2, hg, hext]
            | ok od =>
              cases od with
              | none => simp [imagine, h1, h2, hg, hext, imagineNoImage_no_temp]
              | some d =>
                by_cases hd : d = []
                · subst hd
                  simp [imagine, h1, h2, hg, hext, imagineNoImage_no_temp]
                · cases hA : env.replyStatusOk <;> cases hB : env.replyPhotoOk <;>
                    simp [imagine, h1, h2, hg, hext, hA, hB, hd]
  · rintro ⟨h1, h2, rfl, resp, d, hg, hext, hd⟩
    cases hA : env.replyStatusOk <;> cases hB : env.replyPhotoOk <;>
      simp [imagine, h1, h2, hg, hext, hA, hB, hd]

/-- Witness for C8 on the send path: one non-empty inline-data part, send
succeeds. -/
theorem imagine_no_temp_leak_witness :
    (imagine tgAllOk true [['a']] genOnePartStub b64Stub).tempDeleted =
      (imagine tgAllOk true [['a']] genOnePartStub b64Stub).tempCreated ∧
    (imagine tgAllOk true [['a']] genOnePartStub b64Stub).tempCreated = true :=
  ⟨(imagine_no_temp_leak tgAllOk true [['a']] genOnePartStub b64Stub).1,
   (imagine_no_temp_leak tgAllOk true [['a']] genOnePartStub b64Stub).2
     ⟨by decide, by decide, rfl, respOnePart, [9], rfl, rfl, by decide⟩⟩

/-- C10: /edit resolves its input image by fixed priority — command-message
photo first, then replied-to-message photo, then the sender's stored image
context; with none of the three, the handler replies with an error and
returns without any generative-AI call. -/
theorem edit_image_source_priority (apiKeySet : Bool)
    (genEdit : List Char → List Nat → Except PyExn Response)
    (b64 : List Char → Except PyExn (List Nat)) (download : Nat → List Nat)
    (args : List (List Char)) (msgPhotos : List Nat)
    (replyPhotos : Option (List Nat)) (uid : Option Nat)
    (ctx : Nat → Option (List Nat)) (hargs : args ≠ []) :
    (∀ p, msgPhotos.getLast? = some p →
      edit_image_source msgPhotos replyPhotos uid ctx =
        some (ImageSource.fromMessage p)) ∧
    (∀ rp p, msgPhotos = [] → replyPhotos = some rp → rp.getLast? = some p →
      edit_image_source msgPhotos replyPhotos uid ctx =
        some (ImageSource.fromReply p)) ∧
    (∀ u b, msgPhotos = [] →
      (replyPhotos = none ∨ replyPhotos = some []) →
      uid = some u → u ≠ 0 → ctx u = some b →
      edit_image_source msgPhotos replyPhotos uid ctx =
        some (ImageSource.fromContext b)) ∧
    (edit_image_source msgPhotos replyPhotos uid ctx = none →
      edit_image apiKeySet genEdit b64 download args msgPhotos replyPhotos uid ctx =
        ([NetCall.tgReply no_image_error_message], EditOutcome.noImage) ∧
      List.countP isGenCall
        (edit_image apiKeySet genEdit b64 download args msgPhotos replyPhotos uid ctx).1
        = 0) := by
  refine ⟨?_, ?_, ?_, ?_⟩
  · intro p hp
    simp [edit_image_source, hp]
  · rintro rp p hmsg rfl hlast
    subst hmsg
    simp [edit_image_source, hlast]
  · rintro u b hmsg hrp rfl hu hb
    subst hmsg
    rcases hrp with rfl | rfl <;> simp [edit_image_source, ctxSource, hu, hb]
  · intro hnone
    have he : edit_image apiKeySet genEdit b64 download args msgPhotos replyPhotos uid ctx
        = ([NetCall.tgReply no_image_error_message], EditOutcome.noImage) := by
      simp [edit_image, hargs, hnone]
    rw [he]
    exact ⟨rfl, by simp [isGenCall]⟩

/-- Witness for C10: a photo on the command message wins. -/
theorem edit_image_source_priority_witness :
    ([['x']] : List (List Char)) ≠ [] ∧
    edit_image_source [5] none none emptyCtx = some (ImageSource.fromMessage 5) :=
  ⟨by decide,
   (edit_image_source_priority true genFailStub b64Stub dlStub [['x']] [5]
     none none emptyCtx (by decide)).1 5 rfl⟩

/-- C6 counterexample: request handling is not independent of other
requests — the same /edit invocation (no attached photo, no reply) fails
with the no-image error on the initial shared `user_image_context`, but
proceeds past that error after a photo-handler request by the same user
stored an image into the shared global. -/
theorem shared_context_counterexample :
    handle_photo_stores 1 [7] emptyCtx 1 ≠ emptyCtx 1 ∧
    (edit_image true genFailStub b64Stub dlStub [['x']] [] none (some 1)
      emptyCtx).2 = EditOutcome.noImage ∧
    (edit_image true genFailStub b64Stub dlStub [['x']] [] none (some 1)
      (handle_photo_stores 1 [7] emptyCtx)).2 ≠ EditOutcome.noImage := by
  refine ⟨?_, rfl, ?_⟩
  · simp [handle_photo_stores, emptyCtx]
  · decide

/-- C6 amended: the handlers share module-level mutable state — the image
bytes the photo handler writes into `user_image_context` are exactly what
a later /edit by the same sender (with no photo of its own) reads back. -/
theorem shared_context_flow (ctx : Nat → Option (List Nat)) (uid : Nat)
    (bytes : List Nat) (hu : uid ≠ 0) :
    handle_photo_stores uid bytes ctx uid = some bytes ∧
    edit_image_source [] none (some uid) (handle_photo_stores uid bytes ctx) =
      some (ImageSource.fromContext bytes) := by
  constructor
  · simp [handle_photo_stores]
  · simp [edit_image_source, ctxSource, hu, handle_photo_stores]

/-- Witness for the amended C6. -/
theorem shared_context_flow_witness :
    (1 : Nat) ≠ 0 ∧
    edit_image_source [] none (some 1) (handle_photo_stores 1 [7] emptyCtx) =
      some (ImageSource.fromContext [7]) :=
  ⟨by decide, (shared_context_flow emptyCtx 1 [7] (by decide)).2⟩

/-- C7: a stored-image text message that contains an edit keyword but whose
instruction is empty once the four edit keywords are stripped and the rest
trimmed is routed to /edit with the fixed fallback instruction
"realistic va chiroyli qiling" instead of being rejected. -/
theorem empty_edit_instruction_fallback (uid : Nat)
    (ctx : Nat → Option (List Nat)) (b : List Nat) (msg : List Char)
    (hu : uid ≠ 0) (hctx : ctx uid = some b)
    (hedit : (editKws.any fun k => hasSub k (trimChars (lowerChars msg))) = true)
    (hempty : trimChars (replaceAll ozgartirKw (replaceAll ozgartirAposKw
      (replaceAll editWordKw (replaceAll tahrirKw
        (trimChars (lowerChars msg)))))) = []) :
    handle_image_command true (some uid) ctx msg =
      ImageCmdRoute.callEdit (pySplit default_edit_instruction) ∧
    joinSp (pySplit default_edit_instruction) = default_edit_instruction := by
  have hall := all_space_of_trim_empty hempty
  have hsurv : ∀ c : Char, c ∈ trimChars (lowerChars msg) →
      c ∉ tahrirKw → c ∉ editWordKw → c ∉ ozgartirAposKw → c ∉ ozgartirKw →
      isSp c = true := by
    intro c hc n1 n2 n3 n4
    exact hall c
      (mem_replaceAll (mem_replaceAll (mem_replaceAll (mem_replaceAll hc n1) n2) n3) n4)
  have hslash : startsWith slashChar (trimChars (lowerChars msg)) = false := by
    cases hsw : startsWith slashChar (trimChars (lowerChars msg))
    · rfl
    · exfalso
      have hmem : '/' ∈ trimChars (lowerChars msg) := by
        rw [startsWith_eq_append slashChar _ hsw]
        simp [slashChar]
      have hsp := hsurv '/' hmem (by decide) (by decide) (by decide) (by decide)
      exact absurd hsp (by decide)
  have hana : (analysisKws.any fun k => hasSub k (trimChars (lowerChars msg))) = false := by
    cases ha : (analysisKws.any fun k => hasSub k (trimChars (lowerChars msg)))
    · rfl
    · exfalso
      rw [List.any_eq_true] at ha
      obtain ⟨k, hk, hsub⟩ := ha
      simp only [analysisKws, List.mem_cons, List.not_mem_nil, or_false] at hk
      rcases hk with rfl | rfl | rfl | rfl | rfl
      · have hcm := mem_of_hasSub hsub (show 'l' ∈ "tahlil".toList by decide)
        have hsp := hsurv 'l' hcm (by decide) (by decide) (by decide) (by decide)
        exact absurd hsp (by decide)
      · have hcm := mem_of_hasSub hsub (show 'l' ∈ "analiz".toList by decide)
        have hsp := hsurv 'l' hcm (by decide) (by decide) (by decide) (by decide)
        exact absurd hsp (by decide)
      · have hcm := mem_of_hasSub hsub (show 'l' ∈ "batafsil".toList by decide)
        have hsp := hsurv 'l' hcm (by decide) (by decide) (by decide) (by decide)
        exact absurd hsp (by decide)
      · have hcm := mem_of_hasSub hsub (show 'n' ∈ "ko\x27ring".toList by decide)
        have hsp := hsurv 'n' hcm (by decide) (by decide) (by decide) (by decide)
        exact absurd hsp (by decide)
      · have hcm := mem_of_hasSub hsub (show 'n' ∈ "koring".toList by decide)
        have hsp := hsurv 'n' hcm (by decide) (by decide) (by decide) (by decide)
        exact absurd hsp (by decide)
  refine ⟨?_, by decide⟩
  simp [handle_image_command, hu, hctx, hslash, hana, hedit, hempty]

/-- Witness for C7 on the message "edit". -/
theorem empty_edit_instruction_fallback_witness :
    ((fun _ => some ([] : List Nat)) 1 = some ([] : List Nat)) ∧
    handle_image_command true (some 1) (fun _ => some []) "edit".toList =
      ImageCmdRoute.callEdit (pySplit default_edit_instruction) :=
  ⟨rfl,
   (empty_edit_instruction_fallback 1 (fun _ => some []) [] "edit".toList
     (by decide) rfl (by decide) (by decide)).1⟩

end FalImageBot
